import Mathlib

/-!
Shallow embedding of the CORS proxy server (proxy.py): the origin gate,
the target resolver, the header selector, the request handler with its
error mapping, and the CORS header injection hook.

External library calls (URL parsing and the outbound HTTP transport) are
modelled as oracle inputs to the handler: theorems quantify over every
behaviour the library could exhibit.
-/

/-- Python truthiness of an optional string: None and the empty string are falsy. -/
def truthy : Option String → Bool
  | none => false
  | some s => s != ""

/-- Python str.startswith, on the character lists of the strings. -/
def startswith (s p : String) : Bool :=
  p.data.isPrefixOf s.data

/-- Lower-casing used for case-insensitive header lookup. -/
def lowerStr (s : String) : String :=
  ⟨s.data.map Char.toLower⟩

/-- Case-insensitive header map lookup, as Werkzeug headers.get performs it:
the first pair whose name matches case-insensitively. -/
def headerGet (hs : List (String × String)) (name : String) : Option String :=
  (hs.find? (fun p => lowerStr p.1 == lowerStr name)).map (fun p => p.2)

/-- The ALLOWED_ORIGINS constant from proxy.py. -/
def ALLOWED_ORIGINS : List String :=
  ["https://pltchuong.github.io", "http://localhost", "http://127.0.0.1"]

/-- is_origin_allowed from proxy.py: empty origin is falsy, otherwise the
loop accepts an exact match, a path match or a port match against an entry. -/
def is_origin_allowed (origin : String) : Bool :=
  if origin == "" then false
  else ALLOWED_ORIGINS.any (fun allowed =>
    origin == allowed || startswith origin (allowed ++ "/") || startswith origin (allowed ++ ":"))

/-- get_target_url from proxy.py: a truthy query parameter wins, else the
path remainder after the /proxy/ route remainder, else None. -/
def get_target_url (path : String) (query_url : Option String) : Option String :=
  if truthy query_url then query_url
  else if startswith path "/proxy/" then some (path.drop 7)
  else none

/-- The header names forwarded to the target server, in loop order. -/
def FORWARD_HEADER_NAMES : List String :=
  ["Content-Type", "Accept", "Authorization", "User-Agent", "X-Requested-With"]

/-- Body of the loop in get_forward_headers: copy the header when its
incoming value is truthy (present and non-empty), else keep the map as is. -/
def forwardStep (reqHeaders : List (String × String)) (headers : List (String × String))
    (header : String) : List (String × String) :=
  match headerGet reqHeaders header with
  | some value => if value != "" then headers ++ [(header, value)] else headers
  | none => headers

/-- get_forward_headers from proxy.py: copy each allow-listed header whose
incoming value is truthy, then inject the default User-Agent when absent. -/
def get_forward_headers (reqHeaders : List (String × String)) : List (String × String) :=
  let headers := FORWARD_HEADER_NAMES.foldl (forwardStep reqHeaders) []
  if (headers.lookup "User-Agent").isNone then headers ++ [("User-Agent", "CORS-Proxy/1.0")]
  else headers

/-- An incoming HTTP request as the handler sees it: method, path,
the url query parameter, the header map, and the raw body bytes. -/
structure Request where
  method : String
  path : String
  queryUrl : Option String
  headers : List (String × String)
  bodyData : List Nat
deriving DecidableEq

/-- Outcome of the urllib.parse.urlparse library call on the target string:
either a parsed scheme, or a raised exception. -/
inductive ParseOutcome where
  | ok (scheme : String)
  | err
deriving DecidableEq

/-- Outcome of the urllib.request.urlopen transport call: a response,
an HTTPError (whose fp may be absent), a URLError, or any other exception. -/
inductive ForwardOutcome where
  | success (status : Nat) (contentType : Option String) (body : List Nat)
  | httpError (code : Nat) (contentType : Option String) (fpBody : Option (List Nat))
  | urlError (reason : String)
  | otherError (msg : String)
deriving DecidableEq

/-- Body of a constructed response: empty, raw bytes, or a jsonify object
(all values in proxy.py are strings, kept in source order). -/
inductive RespBody where
  | empty
  | bytes (b : List Nat)
  | json (obj : List (String × String))
deriving DecidableEq

/-- A response: status, body, explicit content type (none means the
framework default), and the explicitly attached headers. -/
structure Resp where
  status : Nat
  body : RespBody
  contentType : Option String
  headers : List (String × String)
deriving DecidableEq

/-- The outbound request handed to the transport, recorded so that theorems
can state whether and with what arguments the network was reached. -/
structure OutboundCall where
  method : String
  url : String
  headers : List (String × String)
  body : Option (List Nat)
deriving DecidableEq

/-- The Origin header of a request with the empty-string default:
request.headers.get of Origin with default empty. -/
def requestOrigin (req : Request) : String :=
  (headerGet req.headers "Origin").getD ""

/-- The four CORS headers attached by after_request for an allowed origin. -/
def corsHeaders (origin : String) : List (String × String) :=
  [("Access-Control-Allow-Origin", origin),
   ("Access-Control-Allow-Methods", "GET, POST, PUT, DELETE, OPTIONS, PATCH"),
   ("Access-Control-Allow-Headers", "Content-Type, Authorization, X-Requested-With, Accept, Origin"),
   ("Access-Control-Max-Age", "86400")]

/-- after_request from proxy.py: attach the CORS headers to the response
exactly when the Origin of the request is allowed, echoing that origin. -/
def after_request (req : Request) (resp : Resp) : Resp :=
  let origin := requestOrigin req
  if is_origin_allowed origin then
    { resp with headers := resp.headers ++ corsHeaders origin }
  else resp

/-- The proxy view function from proxy.py, with the urlparse result and the
transport outcome supplied as oracles. Returns the constructed response and
the outbound call made, if any. -/
def proxy (req : Request) (parse : String → ParseOutcome) (fwd : ForwardOutcome) :
    Resp × Option OutboundCall :=
  let origin := requestOrigin req
  if req.method == "OPTIONS" then
    if is_origin_allowed origin then (⟨200, .empty, none, []⟩, none)
    else (⟨403, .empty, none, []⟩, none)
  else if !is_origin_allowed origin then
    (⟨403, .json [("error", "Forbidden"), ("message", "Origin not allowed")],
      some "application/json", []⟩, none)
  else
    let target_url := get_target_url req.path req.queryUrl
    if !truthy target_url then
      (⟨400, .json [("error", "Missing target URL"),
                    ("usage", "/proxy?url=<encoded_url> or /proxy/<url>"),
                    ("example", "/proxy?url=https://api.example.com/data")],
        some "application/json", []⟩, none)
    else
      let t := target_url.getD ""
      match parse t with
      | .err => (⟨400, .json [("error", "Invalid URL format")], some "application/json", []⟩, none)
      | .ok scheme =>
        if !(scheme == "http" || scheme == "https") then
          (⟨400, .json [("error", "URL must start with http:// or https://")],
            some "application/json", []⟩, none)
        else
          let body := if req.method == "POST" || req.method == "PUT" || req.method == "PATCH"
            then some req.bodyData else none
          let call : OutboundCall := ⟨req.method, t, get_forward_headers req.headers, body⟩
          match fwd with
          | .success st ct b =>
            (⟨st, .bytes b, some (ct.getD "application/octet-stream"), []⟩, some call)
          | .httpError code ct fb =>
            (⟨code, .bytes (fb.getD []), some (ct.getD "application/octet-stream"), []⟩, some call)
          | .urlError reason =>
            (⟨502, .json [("error", "Failed to connect"), ("message", reason)],
              some "application/json", []⟩, some call)
          | .otherError msg =>
            (⟨500, .json [("error", "Proxy error"), ("message", msg)],
              some "application/json", []⟩, some call)

/-- The full handling of one request on the proxy route: the view function
followed by the after_request CORS hook. -/
def handle (req : Request) (parse : String → ParseOutcome) (fwd : ForwardOutcome) :
    Resp × Option OutboundCall :=
  let r := proxy req parse fwd
  (after_request req r.1, r.2)


/-! ### Helper lemmas -/

theorem lookup_mem {α β : Type} [BEq α] [LawfulBEq α] {l : List (α × β)} {k : α} {v : β}
    (h : l.lookup k = some v) : (k, v) ∈ l := by
  induction l with
  | nil => simp [List.lookup] at h
  | cons a t ih =>
    rw [List.lookup] at h
    by_cases hk : k == a.1
    · rw [hk] at h
      cases h
      have : k = a.1 := eq_of_beq hk
      subst this
      exact List.mem_cons_self _ _
    · rw [Bool.of_not_eq_true hk] at h
      exact List.mem_cons_of_mem _ (ih h)

theorem lookup_append {α β : Type} [BEq α] {l l' : List (α × β)} {k : α} :
    (l ++ l').lookup k =
      match l.lookup k with
      | some v => some v
      | none => l'.lookup k := by
  induction l with
  | nil => simp [List.lookup]
  | cons a t ih =>
    rw [List.cons_append, List.lookup, List.lookup]
    cases k == a.1 <;> simp [ih]

theorem forwardStep_mem {reqHeaders acc : List (String × String)} {h : String}
    {p : String × String} (hp : p ∈ forwardStep reqHeaders acc h) :
    p ∈ acc ∨ (p.1 = h ∧ headerGet reqHeaders h = some p.2 ∧ p.2 ≠ "") := by
  unfold forwardStep at hp
  split at hp
  · rename_i v hh
    split at hp
    · rename_i hv
      rw [List.mem_append, List.mem_singleton] at hp
      rcases hp with h1 | h1
      · exact Or.inl h1
      · subst h1
        exact Or.inr ⟨rfl, hh, by simpa using hv⟩
    · exact Or.inl hp
  · exact Or.inl hp

theorem foldl_forwardStep_mem {reqHeaders : List (String × String)} {names : List String}
    {acc : List (String × String)} {p : String × String}
    (hp : p ∈ names.foldl (forwardStep reqHeaders) acc) :
    p ∈ acc ∨ (p.1 ∈ names ∧ headerGet reqHeaders p.1 = some p.2 ∧ p.2 ≠ "") := by
  induction names generalizing acc with
  | nil => exact Or.inl (by simpa using hp)
  | cons h t ih =>
    rw [List.foldl_cons] at hp
    rcases ih hp with hacc | hrest
    · rcases forwardStep_mem hacc with h1 | h1
      · exact Or.inl h1
      · exact Or.inr ⟨by rw [h1.1]; exact List.mem_cons_self _ _, by rw [h1.1]; exact h1.2.1, h1.2.2⟩
    · exact Or.inr ⟨List.mem_cons_of_mem _ hrest.1, hrest.2⟩

theorem mem_get_forward_headers {hs : List (String × String)} {p : String × String}
    (hp : p ∈ get_forward_headers hs) :
    p = ("User-Agent", "CORS-Proxy/1.0") ∨
      (p.1 ∈ FORWARD_HEADER_NAMES ∧ headerGet hs p.1 = some p.2 ∧ p.2 ≠ "") := by
  unfold get_forward_headers at hp
  by_cases hl : ((FORWARD_HEADER_NAMES.foldl (forwardStep hs) []).lookup "User-Agent").isNone
  · simp only [hl, if_true, List.mem_append, List.mem_singleton] at hp
    rcases hp with h1 | h1
    · rcases foldl_forwardStep_mem h1 with h2 | h2
      · simp at h2
      · exact Or.inr h2
    · exact Or.inl h1
  · simp only [hl, if_false] at hp
    rcases foldl_forwardStep_mem hp with h2 | h2
    · simp at h2
    · exact Or.inr h2

theorem names_not_sensitive {n : String} (hn : n ∈ FORWARD_HEADER_NAMES) :
    n ≠ "Cookie" ∧ n ≠ "Host" ∧ n ≠ "Origin" := by
  fin_cases hn <;> exact ⟨by decide, by decide, by decide⟩

/-! ### Claims -/

/-- C1 counterexample: when the url query parameter is present but empty,
get_target_url does not return the query parameter value (the claim says it
would for every non-None value including the empty string). -/
theorem c1_counterexample : get_target_url "/other" (some "") ≠ some "" := by decide

/-- C1 (amended): a non-empty query parameter value wins regardless of path
content; an empty-string or absent query parameter falls back to the path
remainder after the proxy route segment, and the result is None when neither
form supplies a target. -/
theorem c1_target_resolution (path : String) (q : Option String) :
    (∀ s, q = some s → s ≠ "" → get_target_url path q = some s) ∧
    (q = none ∨ q = some "" →
      get_target_url path q =
        if startswith path "/proxy/" then some (path.drop 7) else none) := by
  constructor
  · intro s hq hs
    subst hq
    simp [get_target_url, truthy, hs]
  · intro hq
    rcases hq with h | h <;> subst h <;> simp [get_target_url, truthy]

/-- C1 witness: the amended claim at a non-empty query value and at an
absent query value over the path form. -/
theorem c1_target_resolution_witness :
    get_target_url "/proxy/https://a.test/b" (some "https://q.test/c") = some "https://q.test/c" ∧
    get_target_url "/proxy/https://x.test/y" none = some "https://x.test/y" := by
  constructor
  · exact (c1_target_resolution "/proxy/https://a.test/b" (some "https://q.test/c")).1 _ rfl
      (by decide)
  · have h := (c1_target_resolution "/proxy/https://x.test/y" none).2 (Or.inl rfl)
    rw [h]; decide

/-- C2: is_origin_allowed accepts exactly the origins that equal an
allow-list entry or extend one with a slash or a colon, and rejects the
empty origin. -/
theorem c2_origin_gate (o : String) :
    (is_origin_allowed o = true ↔
      ∃ e ∈ ALLOWED_ORIGINS,
        o = e ∨ startswith o (e ++ "/") = true ∨ startswith o (e ++ ":") = true) ∧
    is_origin_allowed "" = false := by
  refine ⟨?_, by decide⟩
  by_cases ho : o = ""
  · subst ho
    simp only [is_origin_allowed, beq_self_eq_true, if_true]
    constructor
    · intro h; exact absurd h (by decide)
    · intro h; exact absurd h (by decide)
  · simp [is_origin_allowed, ho, List.any_eq_true, or_assoc]

/-- C9: the forwarded header set only contains the five allow-listed names,
never Cookie, Host or Origin, and always contains a non-empty User-Agent,
the fixed default being injected when the incoming request supplies none. -/
theorem c9_forward_header_allowlist (hs : List (String × String)) :
    (∀ p ∈ get_forward_headers hs,
        p.1 ∈ FORWARD_HEADER_NAMES ∧ p.1 ≠ "Cookie" ∧ p.1 ≠ "Host" ∧ p.1 ≠ "Origin") ∧
    (∃ v, ("User-Agent", v) ∈ get_forward_headers hs ∧ v ≠ "") ∧
    (headerGet hs "User-Agent" = none →
      ("User-Agent", "CORS-Proxy/1.0") ∈ get_forward_headers hs) := by
  refine ⟨?_, ?_, ?_⟩
  · intro p hp
    rcases mem_get_forward_headers hp with h1 | h1
    · subst h1
      exact ⟨by decide, by decide, by decide, by decide⟩
    · exact ⟨h1.1, names_not_sensitive h1.1⟩
  · unfold get_forward_headers
    cases hv : (FORWARD_HEADER_NAMES.foldl (forwardStep hs) []).lookup "User-Agent" with
    | none =>
      refine ⟨"CORS-Proxy/1.0", ?_, by decide⟩
      simp [hv]
    | some v =>
      refine ⟨v, ?_, ?_⟩
      · simp [hv]
        exact lookup_mem hv
      · rcases foldl_forwardStep_mem (lookup_mem hv) with h2 | h2
        · simp at h2
        · exact h2.2.2
  · intro hua
    unfold get_forward_headers
    cases hv : (FORWARD_HEADER_NAMES.foldl (forwardStep hs) []).lookup "User-Agent" with
    | none => simp [hv]
    | some v =>
      exfalso
      rcases foldl_forwardStep_mem (lookup_mem hv) with h2 | h2
      · simp at h2
      · rw [hua] at h2
        exact Option.noConfusion h2.2.1

/-- C9 witness: with only sensitive incoming headers, the forwarded set
contains the default User-Agent, whose name is on the allow-list and is
none of Cookie, Host, Origin. -/
theorem c9_forward_header_allowlist_witness :
    ("User-Agent", "CORS-Proxy/1.0").1 ∈ FORWARD_HEADER_NAMES ∧
    ("User-Agent", "CORS-Proxy/1.0").1 ≠ "Cookie" ∧
    ("User-Agent", "CORS-Proxy/1.0").1 ≠ "Host" ∧
    ("User-Agent", "CORS-Proxy/1.0").1 ≠ "Origin" := by
  have h := c9_forward_header_allowlist [("Cookie", "a"), ("Host", "b"), ("Origin", "c")]
  exact h.1 _ (h.2.2 (by decide))

/-- C10: every value in the forwarded header set is non-empty: an
allow-listed incoming header with an empty value is dropped, and an incoming
User-Agent present with the empty value is replaced by the default. -/
theorem c10_empty_values_dropped (hs : List (String × String)) :
    (∀ p ∈ get_forward_headers hs, p.2 ≠ "") ∧
    (headerGet hs "User-Agent" = some "" →
      (get_forward_headers hs).lookup "User-Agent" = some "CORS-Proxy/1.0") := by
  constructor
  · intro p hp
    rcases mem_get_forward_headers hp with h1 | h1
    · subst h1; decide
    · exact h1.2.2
  · intro hua
    unfold get_forward_headers
    cases hv : (FORWARD_HEADER_NAMES.foldl (forwardStep hs) []).lookup "User-Agent" with
    | none =>
      simp only [hv, Option.isNone_none, if_true]
      rw [@lookup_append String String _
        (FORWARD_HEADER_NAMES.foldl (forwardStep hs) []) [("User-Agent", "CORS-Proxy/1.0")]
        "User-Agent"]
      rw [hv]
      decide
    | some v =>
      exfalso
      rcases foldl_forwardStep_mem (lookup_mem hv) with h2 | h2
      · simp at h2
      · rw [hua] at h2
        exact h2.2.2 (Option.some.inj h2.2.1).symm

/-- C10 witness: an incoming User-Agent with an empty value is forwarded as
the default identifier. -/
theorem c10_empty_values_dropped_witness :
    (get_forward_headers [("User-Agent", "")]).lookup "User-Agent" = some "CORS-Proxy/1.0" :=
  (c10_empty_values_dropped [("User-Agent", "")]).2 (by decide)

theorem proxy_headers_nil (req : Request) (parse : String → ParseOutcome)
    (fwd : ForwardOutcome) : (proxy req parse fwd).1.headers = [] := by
  unfold proxy
  dsimp only
  repeat' split <;> try rfl

/-- C4: every non-preflight request from a disallowed or absent origin gets
the fixed 403 Forbidden JSON response with no CORS headers, independently of
the path, the query, the parser and the transport, and no outbound call. -/
theorem c4_forbidden_origin (req : Request) (parse : String → ParseOutcome)
    (fwd : ForwardOutcome)
    (hm : req.method ≠ "OPTIONS")
    (ho : is_origin_allowed (requestOrigin req) = false) :
    handle req parse fwd =
      (⟨403, .json [("error", "Forbidden"), ("message", "Origin not allowed")],
        some "application/json", []⟩, none) := by
  simp [handle, proxy, after_request, hm, ho]

/-- C4 witness: a POST with a disallowed origin and a valid target is
rejected with the fixed 403 body and no outbound call. -/
theorem c4_forbidden_origin_witness :
    handle ⟨"POST", "/proxy/http://t.test/a", none, [("Origin", "https://evil.example")], [1]⟩
        (fun _ => ParseOutcome.ok "http") (ForwardOutcome.success 200 none []) =
      (⟨403, .json [("error", "Forbidden"), ("message", "Origin not allowed")],
        some "application/json", []⟩, none) :=
  c4_forbidden_origin _ _ _ (by decide) (by decide)

/-- C5: a preflight OPTIONS request returns 200 with an empty body and the
CORS headers when the origin is allowed, 403 with an empty body and no CORS
headers when it is not, and in both cases no outbound call is made and the
resolver outcome is irrelevant. -/
theorem c5_preflight (req : Request) (parse : String → ParseOutcome) (fwd : ForwardOutcome)
    (hm : req.method = "OPTIONS") :
    handle req parse fwd =
      (if is_origin_allowed (requestOrigin req) then
        (⟨200, .empty, none, corsHeaders (requestOrigin req)⟩, none)
       else (⟨403, .empty, none, []⟩, none)) := by
  cases ho : is_origin_allowed (requestOrigin req) <;>
    simp [handle, proxy, after_request, hm, ho]

/-- C5 witness: the preflight outcome at an allowed and at a disallowed
concrete origin. -/
theorem c5_preflight_witness :
    handle ⟨"OPTIONS", "/proxy", none, [("Origin", "https://pltchuong.github.io")], []⟩
        (fun _ => ParseOutcome.err) (ForwardOutcome.urlError "x") =
      (⟨200, .empty, none, corsHeaders "https://pltchuong.github.io"⟩, none) ∧
    handle ⟨"OPTIONS", "/proxy", none, [("Origin", "https://unknown.example")], []⟩
        (fun _ => ParseOutcome.err) (ForwardOutcome.urlError "x") =
      (⟨403, .empty, none, []⟩, none) := by
  constructor
  · have h := c5_preflight ⟨"OPTIONS", "/proxy", none,
      [("Origin", "https://pltchuong.github.io")], []⟩
      (fun _ => ParseOutcome.err) (ForwardOutcome.urlError "x") rfl
    rw [h]; decide
  · have h := c5_preflight ⟨"OPTIONS", "/proxy", none,
      [("Origin", "https://unknown.example")], []⟩
      (fun _ => ParseOutcome.err) (ForwardOutcome.urlError "x") rfl
    rw [h]; decide

/-- C3: a non-preflight request whose resolved candidate target fails to
parse, or parses to a scheme other than http or https, gets a 400 response
with the corresponding JSON error, and no outbound call is made. -/
theorem c3_invalid_target (req : Request) (parse : String → ParseOutcome)
    (fwd : ForwardOutcome) (t : String)
    (hm : req.method ≠ "OPTIONS")
    (ho : is_origin_allowed (requestOrigin req) = true)
    (ht : get_target_url req.path req.queryUrl = some t)
    (hne : t ≠ "")
    (hbad : parse t = .err ∨ ∃ s, parse t = .ok s ∧ s ≠ "http" ∧ s ≠ "https") :
    (handle req parse fwd).1.status = 400 ∧ (handle req parse fwd).2 = none ∧
      (parse t = .err →
        (handle req parse fwd).1.body = .json [("error", "Invalid URL format")]) ∧
      (∀ s, parse t = .ok s →
        (handle req parse fwd).1.body =
          .json [("error", "URL must start with http:// or https://")]) := by
  rcases hbad with hp | ⟨s, hp, h1, h2⟩
  · simp [handle, proxy, after_request, truthy, hm, ho, ht, hne, hp]
  · simp [handle, proxy, after_request, truthy, hm, ho, ht, hne, hp, h1, h2]

/-- C3 witness: an ftp target is rejected with 400 and no outbound call. -/
theorem c3_invalid_target_witness :
    (handle ⟨"GET", "/proxy/ftp://host/x", none, [("Origin", "http://localhost")], []⟩
        (fun _ => ParseOutcome.ok "ftp") (ForwardOutcome.success 200 none [])).1.status = 400 ∧
    (handle ⟨"GET", "/proxy/ftp://host/x", none, [("Origin", "http://localhost")], []⟩
        (fun _ => ParseOutcome.ok "ftp") (ForwardOutcome.success 200 none [])).2 = none := by
  have h := c3_invalid_target
    ⟨"GET", "/proxy/ftp://host/x", none, [("Origin", "http://localhost")], []⟩
    (fun _ => ParseOutcome.ok "ftp") (ForwardOutcome.success 200 none []) "ftp://host/x"
    (by decide) (by decide) (by decide) (by decide)
    (Or.inr ⟨"ftp", rfl, by decide, by decide⟩)
  exact ⟨h.1, h.2.1⟩

/-- C6: when the transport raises an HTTPError, the upstream status code,
the accompanying body bytes and the upstream Content-Type (defaulting to
application/octet-stream) are relayed verbatim. -/
theorem c6_upstream_error_relay (req : Request) (parse : String → ParseOutcome)
    (fwd : ForwardOutcome) (t s : String) (code : Nat) (ct : Option String)
    (fb : Option (List Nat))
    (hm : req.method ≠ "OPTIONS")
    (ho : is_origin_allowed (requestOrigin req) = true)
    (ht : get_target_url req.path req.queryUrl = some t)
    (hne : t ≠ "")
    (hp : parse t = .ok s)
    (hs : s = "http" ∨ s = "https")
    (hcode : 400 ≤ code)
    (hfwd : fwd = .httpError code ct fb) :
    (handle req parse fwd).1.status = code ∧
    (handle req parse fwd).1.body = .bytes (fb.getD []) ∧
    (handle req parse fwd).1.contentType = some (ct.getD "application/octet-stream") := by
  subst hfwd
  rcases hs with h | h <;> subst h <;>
    simp [handle, proxy, after_request, truthy, hm, ho, ht, hne, hp]

/-- C6 witness: an upstream 404 with a body is relayed as status 404 with
the same bytes and its Content-Type. -/
theorem c6_upstream_error_relay_witness :
    (handle ⟨"GET", "/proxy", some "http://t.test/a", [("Origin", "http://localhost:3000")], []⟩
        (fun _ => ParseOutcome.ok "http")
        (ForwardOutcome.httpError 404 (some "application/json") (some [123, 125]))).1.status
      = 404 ∧
    (handle ⟨"GET", "/proxy", some "http://t.test/a", [("Origin", "http://localhost:3000")], []⟩
        (fun _ => ParseOutcome.ok "http")
        (ForwardOutcome.httpError 404 (some "application/json") (some [123, 125]))).1.body
      = .bytes [123, 125] := by
  have h := c6_upstream_error_relay
    ⟨"GET", "/proxy", some "http://t.test/a", [("Origin", "http://localhost:3000")], []⟩
    (fun _ => ParseOutcome.ok "http")
    (ForwardOutcome.httpError 404 (some "application/json") (some [123, 125]))
    "http://t.test/a" "http" 404 (some "application/json") (some [123, 125])
    (by decide) (by decide) (by decide) (by decide) rfl (Or.inl rfl) (by decide) rfl
  exact ⟨h.1, h.2.1⟩

/-- C7: forwarding failures are mapped, never propagated: a URLError yields
502 with the Failed to connect JSON body carrying the reason, and any other
exception yields 500 with the Proxy error JSON body carrying the message. -/
theorem c7_forward_failure_mapping (req : Request) (parse : String → ParseOutcome)
    (fwd : ForwardOutcome) (t s : String)
    (hm : req.method ≠ "OPTIONS")
    (ho : is_origin_allowed (requestOrigin req) = true)
    (ht : get_target_url req.path req.queryUrl = some t)
    (hne : t ≠ "")
    (hp : parse t = .ok s)
    (hs : s = "http" ∨ s = "https") :
    (∀ reason, fwd = .urlError reason →
      (handle req parse fwd).1.status = 502 ∧
      (handle req parse fwd).1.body =
        .json [("error", "Failed to connect"), ("message", reason)]) ∧
    (∀ msg, fwd = .otherError msg →
      (handle req parse fwd).1.status = 500 ∧
      (handle req parse fwd).1.body = .json [("error", "Proxy error"), ("message", msg)]) := by
  constructor <;> intro x hfwd <;> subst hfwd <;> rcases hs with h | h <;> subst h <;>
    simp [handle, proxy, after_request, truthy, hm, ho, ht, hne, hp]

/-- C7 witness: a connection refusal is mapped to 502 with the reason. -/
theorem c7_forward_failure_mapping_witness :
    (handle ⟨"GET", "/proxy", some "http://t.test/a", [("Origin", "http://localhost")], []⟩
        (fun _ => ParseOutcome.ok "http")
        (ForwardOutcome.urlError "Connection refused")).1.status = 502 ∧
    (handle ⟨"GET", "/proxy", some "http://t.test/a", [("Origin", "http://localhost")], []⟩
        (fun _ => ParseOutcome.ok "http")
        (ForwardOutcome.urlError "Connection refused")).1.body =
      .json [("error", "Failed to connect"), ("message", "Connection refused")] := by
  have h := c7_forward_failure_mapping
    ⟨"GET", "/proxy", some "http://t.test/a", [("Origin", "http://localhost")], []⟩
    (fun _ => ParseOutcome.ok "http") (ForwardOutcome.urlError "Connection refused")
    "http://t.test/a" "http"
    (by decide) (by decide) (by decide) (by decide) rfl (Or.inl rfl)
  exact h.1 "Connection refused" rfl

/-- C8: every response of the pipeline carries exactly the four CORS
headers, echoing the request Origin, when that origin is allowed, and no
CORS headers otherwise. -/
theorem c8_cors_injection (req : Request) (parse : String → ParseOutcome)
    (fwd : ForwardOutcome) :
    (handle req parse fwd).1.headers =
      if is_origin_allowed (requestOrigin req) then corsHeaders (requestOrigin req)
      else [] := by
  have h := proxy_headers_nil req parse fwd
  cases ho : is_origin_allowed (requestOrigin req) <;>
    simp [handle, after_request, ho, h]
